import Mathlib

/-!
Verification of the RatoEngine license subsystem.

Shallow embedding of `src/services/license.js`, the crypto utilities
(`generateLicenseKey`, `createOfflineToken`, `verifyOfflineToken`,
`encryptLicenseData`, `decryptLicenseData`) and the pieces of the database
layer they touch (the `licenses` table with its `DEFAULT 'active'` /
`DEFAULT '[]'` columns, and `activation_logs`).

Modelling conventions:
- JavaScript `Date` values are modelled at day granularity by `JSDate`
  (year, 0-based month, 1-based day); `dayNumber` is the proleptic
  Gregorian day count that ECMAScript `MakeDay` computes, so `setMonth` /
  `setFullYear` overflow normalisation (e.g. Jan 31 + 1 month) is captured
  exactly.  Time of day is not modelled; every comparison the claims
  mention is at day granularity or coarser.
- SQLite rows are Lean structures; the store is the list of rows in
  insertion order.  `SELECT .. WHERE key = ?` is `List.find?`; an
  `UPDATE .. WHERE id = ?` maps the update over rows with that id.
- The `machines_used` TEXT column holds `JSON.stringify` of a list of
  strings and is always read back through `JSON.parse`; the round trip is
  the identity on lists of strings, so the column is modelled directly as
  `List String`.
- AES-256-GCM is modelled as an ideal authenticated-encryption scheme:
  decryption recovers exactly the payload that was encrypted, and fails
  (returns `none`, the model of the `catch`-and-return-`null` in
  `decryptLicenseData`) on every blob not produced by `encryptLicenseData`.
  HMAC-SHA256 is modelled as a deterministic function of (secret, message);
  no theorem assumes collision resistance.
-/

/-- A JavaScript date at day granularity: `year`, 0-based `month`
(0 = January, as in `Date.getMonth`), 1-based `day`.  The `day` field may
be larger than the month length: ECMAScript normalises such values through
`MakeDay`, which `dayNumber` reproduces. -/
structure JSDate where
  year : Nat
  month : Nat
  day : Nat
deriving DecidableEq, Repr

/-- Gregorian leap-year test, as in ECMAScript `DaysInYear`. -/
def isLeapYear (y : Nat) : Bool :=
  (y % 4 == 0 && y % 100 != 0) || (y % 400 == 0)

/-- Number of leap years in `[0, y)` (year 0 is a leap year). -/
def leapsTo (y : Nat) : Int :=
  ((y + 3) / 4 : Nat) - ((y + 99) / 100 : Nat) + ((y + 399) / 400 : Nat)

/-- Cumulative days before 0-based month `m` in a non-leap year. -/
def monthOffsets : List Int :=
  [0, 31, 59, 90, 120, 151, 181, 212, 243, 273, 304, 334]

/-- Cumulative days before 0-based month `m`, `leap` telling whether the
year is a leap year. -/
def monthOffsetB (leap : Bool) (m : Nat) : Int :=
  monthOffsets.getD m 0 + (if leap && decide (2 ≤ m) then 1 else 0)

/-- Day count of a `JSDate` from the epoch `0000-01-01`, matching
ECMAScript `MakeDay (year, month, day)` up to a constant offset.  Linear
in `day`, so day-overflow normalisation is implicit. -/
def dayNumber (d : JSDate) : Int :=
  365 * (d.year : Int) + leapsTo d.year
    + monthOffsetB (isLeapYear d.year) d.month + (d.day : Int) - 1

/-- `date.setMonth(date.getMonth() + 1)` on a date with a valid (0..11)
month field: increment the month, carrying into the year. -/
def setMonthPlus1 (d : JSDate) : JSDate :=
  if d.month == 11 then ⟨d.year + 1, 0, d.day⟩ else ⟨d.year, d.month + 1, d.day⟩

/-- `date.setFullYear(date.getFullYear() + k)`. -/
def setFullYearPlus (k : Nat) (d : JSDate) : JSDate :=
  ⟨d.year + k, d.month, d.day⟩

/-- `calculateExpiration` from `src/services/license.js` lines 36-54:
switch on the plan; unknown plans fall through to the monthly case. -/
def calculateExpiration (plan : String) (now : JSDate) : JSDate :=
  if plan == "monthly" then setMonthPlus1 now
  else if plan == "annual" then setFullYearPlus 1 now
  else if plan == "lifetime" then setFullYearPlus 100 now
  else setMonthPlus1 now

/-- `leapsTo` grows by one exactly at leap years. -/
theorem leapsTo_succ (y : Nat) :
    leapsTo (y + 1) = leapsTo y + (if isLeapYear y then 1 else 0) := by
  have h4 : (y + 1 + 3) / 4 = (y + 3) / 4 + (if y % 4 = 0 then 1 else 0) := by
    split <;> omega
  have h100 : (y + 1 + 99) / 100 = (y + 99) / 100 + (if y % 100 = 0 then 1 else 0) := by
    split <;> omega
  have h400 : (y + 1 + 399) / 400 = (y + 399) / 400 + (if y % 400 = 0 then 1 else 0) := by
    split <;> omega
  simp only [leapsTo, isLeapYear, h4, h100, h400]
  by_cases c4 : y % 4 = 0 <;> by_cases c100 : y % 100 = 0 <;> by_cases c400 : y % 400 = 0 <;>
    simp [c4, c100, c400] <;> omega

/-- Over a century, `leapsTo` grows by 24 or 25. -/
theorem leapsTo_add_100 (y : Nat) :
    leapsTo y + 24 ≤ leapsTo (y + 100) ∧ leapsTo (y + 100) ≤ leapsTo y + 25 := by
  have h4 : (y + 100 + 3) / 4 = (y + 3) / 4 + 25 := by omega
  have h100 : (y + 100 + 99) / 100 = (y + 99) / 100 + 1 := by omega
  have h400 : (y + 399) / 400 ≤ (y + 100 + 399) / 400 ∧
      (y + 100 + 399) / 400 ≤ (y + 399) / 400 + 1 := by omega
  simp only [leapsTo]
  push_cast
  omega

/-- Within a year, consecutive month offsets differ by 28..31 days. -/
theorem monthOffsetB_succ_bounds :
    ∀ L : Bool, ∀ m : Nat, m < 11 →
      28 ≤ monthOffsetB L (m + 1) - monthOffsetB L m ∧
      monthOffsetB L (m + 1) - monthOffsetB L m ≤ 31 := by
  decide

/-- The December offset. -/
theorem monthOffsetB_eleven (L : Bool) :
    monthOffsetB L 11 = 334 + (if L then 1 else 0) := by
  cases L <;> decide

/-- Month offsets for the two leap flags differ by at most one day. -/
theorem monthOffsetB_leap_bounds :
    ∀ L L' : Bool, ∀ m : Nat, m < 12 →
      monthOffsetB L' m - 1 ≤ monthOffsetB L m ∧
      monthOffsetB L m ≤ monthOffsetB L' m + 1 := by
  decide

/-- Same month and day one year apart lie 365 or 366 days apart,
whatever the two leap flags are. -/
theorem monthOffsetB_annual_bounds :
    ∀ L L' : Bool, ∀ m : Nat, m < 12 →
      365 ≤ 365 + (if L then (1 : Int) else 0) + monthOffsetB L' m - monthOffsetB L m ∧
      365 + (if L then (1 : Int) else 0) + monthOffsetB L' m - monthOffsetB L m ≤ 366 := by
  decide

/-- `calculateExpiration "monthly"` lands 28 to 31 days ahead. -/
theorem calculateExpiration_monthly_bounds (now : JSDate) (h : now.month < 12) :
    28 ≤ dayNumber (calculateExpiration "monthly" now) - dayNumber now ∧
    dayNumber (calculateExpiration "monthly" now) - dayNumber now ≤ 31 := by
  rw [show calculateExpiration "monthly" now = setMonthPlus1 now from rfl]
  unfold setMonthPlus1
  by_cases h11 : now.month = 11
  · have h0 : monthOffsetB (isLeapYear (now.year + 1)) 0 = 0 := by
      cases isLeapYear (now.year + 1) <;> decide
    simp only [h11, beq_self_eq_true, if_true, dayNumber, leapsTo_succ,
      monthOffsetB_eleven, h0]
    cases isLeapYear now.year <;> simp <;> omega
  · have hne : (now.month == 11) = false := by
      simpa using h11
    simp only [hne, Bool.false_eq_true, if_false]
    have hb := monthOffsetB_succ_bounds (isLeapYear now.year) now.month (by omega)
    simp only [dayNumber]
    omega

/-- `calculateExpiration "annual"` lands 365 or 366 days ahead. -/
theorem calculateExpiration_annual_bounds (now : JSDate) (h : now.month < 12) :
    365 ≤ dayNumber (calculateExpiration "annual" now) - dayNumber now ∧
    dayNumber (calculateExpiration "annual" now) - dayNumber now ≤ 366 := by
  rw [show calculateExpiration "annual" now = setFullYearPlus 1 now from rfl]
  have hb := monthOffsetB_annual_bounds (isLeapYear now.year)
    (isLeapYear (now.year + 1)) now.month h
  simp only [dayNumber, setFullYearPlus, leapsTo_succ]
  omega

/-- `calculateExpiration "lifetime"` lands 36523 to 36526 days (about one
hundred years) ahead. -/
theorem calculateExpiration_lifetime_bounds (now : JSDate) (h : now.month < 12) :
    36523 ≤ dayNumber (calculateExpiration "lifetime" now) - dayNumber now ∧
    dayNumber (calculateExpiration "lifetime" now) - dayNumber now ≤ 36526 := by
  rw [show calculateExpiration "lifetime" now = setFullYearPlus 100 now from rfl]
  have hl := leapsTo_add_100 now.year
  have hb := monthOffsetB_leap_bounds (isLeapYear now.year)
    (isLeapYear (now.year + 100)) now.month h
  simp only [dayNumber, setFullYearPlus]
  omega

/-! ## TokenCodec: the crypto module bundled at the end of
`src/services/local-tts.js` (`generateLicenseKey`, `encryptLicenseData`,
`decryptLicenseData`, `createOfflineToken`, `verifyOfflineToken`). -/

/-- `config.licenseSecret` from `src/config/default.js`. -/
def licenseSecret : String := "ratoengine-license-encryption-key-v1"

/-- `crypto.createHmac('sha256', secret).update(message).digest('hex')`.
Modelled abstractly as a deterministic function of (secret, message) — the
only property any theorem uses.  No collision-freedom is assumed. -/
def hmacSHA256 (secret message : String) : String :=
  "hmac-sha256:" ++ secret ++ ":" ++ message

/-- Rendering of a date into the string that `license.expires_at` holds on
the wire (the source stores ISO strings; only determinism of the rendering
matters to the theorems). -/
def isoDate (d : JSDate) : String :=
  toString d.year ++ "-" ++ toString (d.month + 1) ++ "-" ++ toString d.day

/-- The JSON payload sealed inside an offline token, as built by
`createOfflineToken` (lines 368-381): `expiresAt` carries the license's
`expires_at` date, `createdAt` the minting time. -/
structure TokenPayload where
  key : String
  machineId : String
  expiresAt : JSDate
  plan : String
  createdAt : JSDate
  validationSignature : String
deriving DecidableEq, Repr

/-- An AES-256-GCM blob (`iv ++ authTag ++ ciphertext`, hex-encoded).
Ideal-AEAD model: `enc iv payload` is the blob `encryptLicenseData`
produces with the random 16-byte nonce `iv`; `garbage s` stands for every
string that is not such a blob (truncated hex, wrong tag, tampered
ciphertext, output of a different key...). -/
inductive EncryptedBlob where
  | enc (iv : Nat) (payload : TokenPayload)
  | garbage (s : String)
deriving DecidableEq, Repr

/-- `encryptLicenseData` (lines 318-330): AEAD-encrypt the JSON payload
under the scrypt-derived key with fresh nonce `iv`. -/
def encryptLicenseData (iv : Nat) (data : TokenPayload) : EncryptedBlob :=
  EncryptedBlob.enc iv data

/-- `decryptLicenseData` (lines 335-355): decrypt and JSON-parse, returning
`null` (here `none`) on any failure — the whole body is wrapped in
`try/catch`, so it never throws. -/
def decryptLicenseData : EncryptedBlob → Option TokenPayload
  | EncryptedBlob.enc _ payload => some payload
  | EncryptedBlob.garbage _ => none

/-- Forward declaration of the `licenses` row shape used by
`createOfflineToken`; fields are the columns of the `licenses` table (see
the full definition below `License`).  Declared here because the crypto
module reads `license.key`, `license.expires_at`, `license.plan`. -/
structure LicenseRow where
  key : String
  expires_at : JSDate
  plan : String
deriving DecidableEq, Repr

/-- `createOfflineToken(license, machineId)` — lines 368-381.  `iv` is the
random nonce drawn inside `encryptLicenseData`, `now` the clock read for
`createdAt`. -/
def createOfflineToken (iv : Nat) (now : JSDate) (license : LicenseRow)
    (machineId : String) : EncryptedBlob :=
  encryptLicenseData iv
    { key := license.key
      machineId := machineId
      expiresAt := license.expires_at
      plan := license.plan
      createdAt := now
      validationSignature :=
        hmacSHA256 licenseSecret
          (license.key ++ machineId ++ isoDate license.expires_at) }

/-- Result shape of `verifyOfflineToken`. -/
structure VerifyResult where
  valid : Bool
  reason : Option String := none
  data : Option TokenPayload := none
deriving DecidableEq, Repr

/-- `verifyOfflineToken` (lines 386-406): decrypt, then check expiration,
then recompute and compare the HMAC signature. -/
def verifyOfflineToken (now : JSDate) (token : EncryptedBlob) : VerifyResult :=
  match decryptLicenseData token with
  | none => { valid := false, reason := some "Invalid token" }
  | some data =>
    if dayNumber data.expiresAt < dayNumber now then
      { valid := false, reason := some "License expired" }
    else
      let expectedSignature :=
        hmacSHA256 licenseSecret (data.key ++ data.machineId ++ isoDate data.expiresAt)
      if data.validationSignature != expectedSignature then
        { valid := false, reason := some "Invalid signature" }
      else
        { valid := true, data := some data }

/-- The 36-character alphabet of `generateLicenseKey`. -/
def keyChars : List Char := "ABCDEFGHIJKLMNOPQRSTUVWXYZ0123456789".toList

theorem keyChars_length : keyChars.length = 36 := by decide

/-- `chars.charAt(Math.floor(Math.random() * chars.length))`: a uniform
draw from the 36-symbol alphabet. -/
def keyCharAt (r : Fin 36) : Char :=
  keyChars.get (Fin.cast keyChars_length.symm r)

/-- `generateLicenseKey` (lines 294-306).  The stream of
`Math.floor(Math.random() * 36)` draws is the parameter `rand`
(`Math.random() < 1`, so each draw is below 36); draw `4*i + j` feeds
group `i`, position `j`. -/
def generateLicenseKey (rand : Nat → Fin 36) : String :=
  (List.range 4).foldl (fun key i =>
    (List.range 4).foldl (fun k j => k.push (keyCharAt (rand (4 * i + j))))
      (key.push '-')) "RATO"

/-! ## The license store: the `licenses` and `activation_logs` tables from
`src/database/db.js` and the operations of `src/services/license.js`. -/

/-- One row of the `licenses` table.  `machines_used` is the TEXT column
holding `JSON.stringify` of a string list, modelled as the list itself;
`expires_at` / `last_validated` are DATETIME strings, modelled as
`JSDate`. -/
structure License where
  id : Nat
  key : String
  email : Option String
  plan : String
  max_machines : Int
  machines_used : List String
  status : String
  expires_at : JSDate
  last_validated : Option JSDate
deriving DecidableEq, Repr

/-- One row of the `activation_logs` table (the columns `logActivation`
inserts). -/
structure LogEntry where
  license_id : Nat
  machine_id : String
  action : String
  ip_address : Option String
deriving DecidableEq, Repr

/-- The database state the license service touches: the `licenses` rows in
insertion order, the AUTOINCREMENT counter, and the `activation_logs`
rows. -/
structure DB where
  licenses : List License
  nextId : Nat
  logs : List LogEntry
deriving DecidableEq, Repr

/-- `SELECT * FROM licenses WHERE key = ?` (`key` is UNIQUE, so the first
match is the only one). -/
def findByKey (db : DB) (key : String) : Option License :=
  db.licenses.find? (fun l => l.key == key)

/-- `UPDATE licenses SET ... WHERE id = ?`. -/
def updateById (db : DB) (id : Nat) (f : License → License) : DB :=
  { db with licenses := db.licenses.map (fun l => if l.id == id then f l else l) }

/-- `INSERT INTO licenses (key, email, plan, max_machines, expires_at[, status])`:
append a fresh row; `machines_used` takes the schema default `'[]'`,
`status` the given value (`createLicense` leaves it to the schema default
`'active'`), `last_validated` NULL. -/
def insertLicense (db : DB) (key : String) (email : Option String) (plan : String)
    (maxMachines : Int) (expiresAt : JSDate) (status : String) : DB :=
  { db with
    licenses := db.licenses ++
      [{ id := db.nextId
         key := key
         email := email
         plan := plan
         max_machines := maxMachines
         machines_used := []
         status := status
         expires_at := expiresAt
         last_validated := none }]
    nextId := db.nextId + 1 }

/-- `INSERT INTO activation_logs (license_id, machine_id, action, ip_address)`
(`logActivation`, lines 214-219). -/
def logActivation (db : DB) (licenseId : Nat) (machineId : String)
    (action : String) (ipAddress : Option String) : DB :=
  { db with logs := db.logs ++ [⟨licenseId, machineId, action, ipAddress⟩] }

/-- `key && key.startsWith('RATO-')` — for a string, truthiness plus the
prefix test is just the prefix test. -/
def keyStartsWithRATO (key : String) : Bool :=
  match key.toList with
  | 'R' :: 'A' :: 'T' :: 'O' :: '-' :: _ => true
  | _ => false

/-- `createLicense` (lines 12-31): draw a key, compute the expiry from the
plan, insert; the stored row gets `status` from the schema default
`'active'`.  `rand` is the stream of random draws for the key, `now` the
clock.  Returns the object the function builds plus the new store. -/
def createLicense (rand : Nat → Fin 36) (now : JSDate) (db : DB)
    (email : Option String) (plan : String) (maxMachines : Option Int) :
    License × DB :=
  let key := generateLicenseKey rand
  let expiresAt := calculateExpiration plan now
  let db1 := insertLicense db key email plan (maxMachines.getD 1) expiresAt "active"
  ({ id := db.nextId
     key := key
     email := email
     plan := plan
     max_machines := maxMachines.getD 1
     machines_used := []
     status := "active"
     expires_at := expiresAt
     last_validated := none }, db1)

/-- The `license` object `validateLicense` returns on success (lines
130-140): `machinesUsed` is the *count* `machines.length`. -/
structure LicenseView where
  key : String
  plan : String
  expiresAt : JSDate
  machinesUsed : Nat
  maxMachines : Int
deriving DecidableEq, Repr

/-- Outcome of `validateLicense`. -/
structure ValidationResult where
  valid : Bool
  reason : Option String := none
  license : Option LicenseView := none
  offlineToken : Option EncryptedBlob := none
deriving DecidableEq, Repr

/-- Lines 90-141 of `validateLicense`: the body run once a `license` row is
in hand.  Each `db.prepare(...).run(...)` is one store update; the local
mutations of the fetched `license` object are mirrored by the `lic*`
bindings.  `JSON.parse(license.machines_used || '[]')` reads the machine
list (the catch branch for malformed JSON is unreachable: every stored
value is `JSON.stringify` of a list or the schema default `'[]'`). -/
def validateFound (now : JSDate) (iv : Nat) (db0 : DB) (lic0 : License)
    (machineId : String) : ValidationResult × DB :=
  -- Force active status if somehow not active (lines 91-94)
  let stepA : DB × License :=
    if lic0.status != "active" then
      (updateById db0 lic0.id (fun l => { l with status := "active" }),
       { lic0 with status := "active" })
    else (db0, lic0)
  let db1 := stepA.1
  let lic1 := stepA.2
  -- Always update expiration to future if expired (lines 97-101)
  let stepB : DB × License :=
    if dayNumber lic1.expires_at < dayNumber now then
      let newExpiry := calculateExpiration "lifetime" now
      (updateById db1 lic1.id
        (fun l => { l with expires_at := newExpiry, status := "active" }),
       { lic1 with expires_at := newExpiry })
    else (db1, lic1)
  let db2 := stepB.1
  let lic2 := stepB.2
  -- Machine binding: always allow adding, limits ignored (lines 103-116)
  let machines := lic2.machines_used
  let stepC : DB × List String :=
    if machines.contains machineId then (db2, machines)
    else
      (updateById db2 lic2.id
        (fun l => { l with machines_used := machines ++ [machineId] }),
       machines ++ [machineId])
  let db3 := stepC.1
  let machines2 := stepC.2
  -- Update last validated (lines 119-120)
  let db4 := updateById db3 lic2.id (fun l => { l with last_validated := some now })
  -- Log activation (lines 123-125)
  let db5 := logActivation db4 lic2.id machineId "validate" none
  -- Create offline token (line 128)
  let offlineToken := createOfflineToken iv now ⟨lic2.key, lic2.expires_at, lic2.plan⟩ machineId
  ({ valid := true
     license := some
       { key := lic2.key
         plan := lic2.plan
         expiresAt := lic2.expires_at
         machinesUsed := machines2.length
         maxMachines := lic2.max_machines }
     offlineToken := some offlineToken }, db5)

/-- `validateLicense` (lines 59-141).  A missing key matching `RATO-` is
auto-provisioned as a lifetime license (lines 62-84) and re-fetched; the
UNIQUE-violation catch is unreachable because the key was just found
absent.  `iv` is the nonce drawn for the offline token, `now` the clock. -/
def validateLicense (now : JSDate) (iv : Nat) (db : DB) (key machineId : String) :
    ValidationResult × DB :=
  match findByKey db key with
  | some license => validateFound now iv db license machineId
  | none =>
    if keyStartsWithRATO key then
      let expiresAt := calculateExpiration "lifetime" now
      let db1 := insertLicense db key (some "bypass@ratoengine.com") "lifetime"
        999 expiresAt "active"
      match findByKey db1 key with
      | some license => validateFound now iv db1 license machineId
      | none => ({ valid := false, reason := some "License key not found" }, db1)
    else
      ({ valid := false,
         reason := some "Chave inválida (deve começar com RATO-)" }, db)

/-- `revokeLicense` (lines 198-201). -/
def revokeLicense (db : DB) (id : Nat) : DB :=
  updateById db id (fun l => { l with status := "revoked" })

/-- `resetMachines` (lines 206-209): `UPDATE licenses SET machines_used = '[]'
WHERE id = ?`. -/
def resetMachines (db : DB) (id : Nat) : DB :=
  updateById db id (fun l => { l with machines_used := [] })

/-! ## Store lemmas -/

/-- A by-id update moves through a by-key lookup (updates keep keys). -/
theorem findByKey_updateById (db : DB) (key : String) (id : Nat)
    (f : License → License) (hf : ∀ l, (f l).key = l.key) :
    findByKey (updateById db id f) key
      = (findByKey db key).map (fun l => if l.id == id then f l else l) := by
  unfold findByKey updateById
  rw [List.find?_map]
  have hp : ((fun l => l.key == key) ∘ fun l => if l.id == id then f l else l)
      = (fun l : License => l.key == key) := by
    funext l
    by_cases h : l.id = id <;> simp [h, hf]
  rw [hp]

/-- Looking up a freshly inserted key that was absent finds the new row. -/
theorem findByKey_insertLicense_of_none (db : DB) (key : String)
    (email : Option String) (plan : String) (maxMachines : Int)
    (expiresAt : JSDate) (status : String) (h : findByKey db key = none) :
    findByKey (insertLicense db key email plan maxMachines expiresAt status) key
      = some
        { id := db.nextId
          key := key
          email := email
          plan := plan
          max_machines := maxMachines
          machines_used := []
          status := status
          expires_at := expiresAt
          last_validated := none } := by
  unfold findByKey at h ⊢
  unfold insertLicense
  simp only [List.find?_append, h]
  simp

/-- The row `validateFound` leaves in the store for the validated license:
status forced to `active`, a past expiry pushed a century out, the machine
appended when absent, `last_validated` stamped. -/
def valFinal (now : JSDate) (machineId : String) (lic : License) : License :=
  let lic1 := if lic.status != "active" then { lic with status := "active" } else lic
  let lic2 :=
    if dayNumber lic1.expires_at < dayNumber now then
      { lic1 with expires_at := calculateExpiration "lifetime" now }
    else lic1
  let lic3 :=
    if lic2.machines_used.contains machineId then lic2
    else { lic2 with machines_used := lic2.machines_used ++ [machineId] }
  { lic3 with last_validated := some now }

/-- Master lemma for the found branch of `validateLicense`: the call
reports `valid` with no reason, and the stored row for that key becomes
`valFinal`. -/
theorem validateFound_spec (now : JSDate) (iv : Nat) (db : DB) (key : String)
    (lic : License) (machineId : String) (h : findByKey db key = some lic) :
    (validateFound now iv db lic machineId).1.valid = true ∧
    (validateFound now iv db lic machineId).1.reason = none ∧
    findByKey (validateFound now iv db lic machineId).2 key
      = some (valFinal now machineId lic) := by
  have hlog : ∀ d i m a ip, findByKey (logActivation d i m a ip) key = findByKey d key :=
    fun _ _ _ _ _ => rfl
  refine ⟨?_, ?_, ?_⟩ <;>
    by_cases hA : lic.status = "active" <;>
      by_cases hB : dayNumber lic.expires_at < dayNumber now <;>
        by_cases hC : machineId ∈ lic.machines_used <;>
          simp [validateFound, valFinal, hA, hB, hC, hlog, findByKey_updateById, h]

/-- `validateFound` always leaves the row active. -/
theorem valFinal_status (now : JSDate) (machineId : String) (lic : License) :
    (valFinal now machineId lic).status = "active" := by
  by_cases hA : lic.status = "active" <;>
    by_cases hB : dayNumber lic.expires_at < dayNumber now <;>
      by_cases hC : machineId ∈ lic.machines_used <;>
        simp [valFinal, hA, hB, hC]

/-- `validateFound` appends the machine exactly when it was absent. -/
theorem valFinal_machines (now : JSDate) (machineId : String) (lic : License) :
    (valFinal now machineId lic).machines_used
      = if machineId ∈ lic.machines_used then lic.machines_used
        else lic.machines_used ++ [machineId] := by
  by_cases hA : lic.status = "active" <;>
    by_cases hB : dayNumber lic.expires_at < dayNumber now <;>
      by_cases hC : machineId ∈ lic.machines_used <;>
        simp [valFinal, hA, hB, hC]

/-- `validateFound` never changes the key, plan, email or capacity. -/
theorem valFinal_frame (now : JSDate) (machineId : String) (lic : License) :
    (valFinal now machineId lic).key = lic.key ∧
    (valFinal now machineId lic).plan = lic.plan ∧
    (valFinal now machineId lic).email = lic.email ∧
    (valFinal now machineId lic).max_machines = lic.max_machines := by
  by_cases hA : lic.status = "active" <;>
    by_cases hB : dayNumber lic.expires_at < dayNumber now <;>
      by_cases hC : machineId ∈ lic.machines_used <;>
        simp [valFinal, hA, hB, hC]

/-- `validateFound` pushes a past expiry a century out and keeps a live
one. -/
theorem valFinal_expires (now : JSDate) (machineId : String) (lic : License) :
    (valFinal now machineId lic).expires_at
      = if dayNumber lic.expires_at < dayNumber now
        then calculateExpiration "lifetime" now else lic.expires_at := by
  by_cases hA : lic.status = "active" <;>
    by_cases hB : dayNumber lic.expires_at < dayNumber now <;>
      by_cases hC : machineId ∈ lic.machines_used <;>
        simp [valFinal, hA, hB, hC]

/-! ## The key format (claim C7) -/

/-- One character of the class `[A-Z0-9]`. -/
def isKeyChar (c : Char) : Bool :=
  ('A' ≤ c && c ≤ 'Z') || ('0' ≤ c && c ≤ '9')

/-- `n` repetitions of `-[A-Z0-9]{4}` and nothing after them. -/
def checkGroups : Nat → List Char → Bool
  | 0, [] => true
  | n + 1, '-' :: a :: b :: c :: d :: rest =>
    isKeyChar a && isKeyChar b && isKeyChar c && isKeyChar d && checkGroups n rest
  | _, _ => false

/-- The regular expression of the spec, `^RATO(-[A-Z0-9]\x7b4\x7d)\x7b4\x7d$`,
as a decidable matcher (written from the spec sentence, to be compared with
`generateLicenseKey`). -/
def matchesKeyPattern (s : String) : Bool :=
  match s.toList with
  | 'R' :: 'A' :: 'T' :: 'O' :: rest => checkGroups 4 rest
  | _ => false

/-- Every draw from the alphabet is an `[A-Z0-9]` character. -/
theorem keyCharAt_isKeyChar : ∀ r : Fin 36, isKeyChar (keyCharAt r) = true := by
  decide

/-! ## Concrete fixtures for counterexamples and witnesses -/

/-- January 15, 2025. -/
def dNow : JSDate := ⟨2025, 0, 15⟩

/-- January 1, 2030 — a future expiry relative to `dNow`. -/
def dFuture : JSDate := ⟨2030, 0, 1⟩

/-- A well-formed license key. -/
def sampleKey : String := "RATO-AAAA-BBBB-CCCC-DDDD"

/-- An active, unexpired license with `max_machines = 1` and machine `"A"`
already bound. -/
def licOneMachine : License :=
  { id := 1, key := sampleKey, email := none, plan := "monthly"
    max_machines := 1, machines_used := ["A"], status := "active"
    expires_at := dFuture, last_validated := none }

/-- A store holding exactly `licOneMachine`. -/
def dbOne : DB := ⟨[licOneMachine], 2, []⟩

/-- An empty store. -/
def dbEmpty : DB := ⟨[], 1, []⟩

/-! ## Claim C7 -/

/-- Claim C7 (confirmed): every string the key generator returns matches
`^RATO(-[A-Z0-9]\x7b4\x7d)\x7b4\x7d$` — the literal prefix `RATO` followed by four
groups of four characters from `[A-Z0-9]`, joined by `-` — whatever the
random draws are. -/
theorem c7_key_pattern (rand : Nat → Fin 36) :
    matchesKeyPattern (generateLicenseKey rand) = true := by
  simp [generateLicenseKey, matchesKeyPattern, String.push, checkGroups,
    List.range_succ, keyCharAt_isKeyChar]

/-! ## Claim C5 -/

/-- Claim C5 (confirmed): for every license whose `expires_at` lies in the
future (here: strictly after the verifying clock, at day granularity),
verifying a freshly created offline token succeeds, and the decrypted data
carries exactly the license's key, the given machineId and the license's
expiry. -/
theorem c5_offline_roundtrip (license : LicenseRow) (machineId : String)
    (iv : Nat) (nowC nowV : JSDate)
    (h : dayNumber nowV < dayNumber license.expires_at) :
    (verifyOfflineToken nowV (createOfflineToken iv nowC license machineId)).valid
      = true ∧
    ∃ d, (verifyOfflineToken nowV (createOfflineToken iv nowC license machineId)).data
        = some d ∧
      d.key = license.key ∧ d.machineId = machineId ∧
      d.expiresAt = license.expires_at := by
  have hexp : ¬ (dayNumber license.expires_at < dayNumber nowV) := by omega
  refine ⟨?_, ?_⟩ <;>
    simp [verifyOfflineToken, createOfflineToken, encryptLicenseData,
      decryptLicenseData, hexp]

/-- Witness for C5 at a concrete license and clocks. -/
theorem c5_offline_roundtrip_witness :
    (verifyOfflineToken dNow
        (createOfflineToken 7 dNow ⟨sampleKey, dFuture, "monthly"⟩ "M1")).valid
      = true ∧
    ∃ d, (verifyOfflineToken dNow
          (createOfflineToken 7 dNow ⟨sampleKey, dFuture, "monthly"⟩ "M1")).data
        = some d ∧
      d.key = (⟨sampleKey, dFuture, "monthly"⟩ : LicenseRow).key ∧
      d.machineId = "M1" ∧
      d.expiresAt = (⟨sampleKey, dFuture, "monthly"⟩ : LicenseRow).expires_at :=
  c5_offline_roundtrip ⟨sampleKey, dFuture, "monthly"⟩ "M1" 7 dNow dNow (by decide)

/-! ## Claim C6 -/

/-- Counterexample to C6 as stated: on a blob that fails to decrypt the
code returns reason `"Invalid token"` (capital I), not the claimed
`"invalid token"`. -/
theorem c6_counterexample :
    decryptLicenseData (EncryptedBlob.garbage "xx") = none ∧
    (verifyOfflineToken dNow (EncryptedBlob.garbage "xx")).valid = false ∧
    (verifyOfflineToken dNow (EncryptedBlob.garbage "xx")).reason
      ≠ some "invalid token" ∧
    (verifyOfflineToken dNow (EncryptedBlob.garbage "xx")).reason
      = some "Invalid token" := by
  refine ⟨rfl, rfl, ?_, rfl⟩
  decide

/-- Claim C6 (corrected: the reason strings are capitalised —
`"Invalid token"`, `"License expired"`, `"Invalid signature"`):
`verifyOfflineToken` always returns a structured result, applying the
checks in order — decryption failure, then expiry, then signature
mismatch, else success. -/
theorem c6_verify_order (now : JSDate) (token : EncryptedBlob) :
    (decryptLicenseData token = none →
      verifyOfflineToken now token
        = { valid := false, reason := some "Invalid token", data := none }) ∧
    (∀ d, decryptLicenseData token = some d →
      dayNumber d.expiresAt < dayNumber now →
      verifyOfflineToken now token
        = { valid := false, reason := some "License expired", data := none }) ∧
    (∀ d, decryptLicenseData token = some d →
      ¬ (dayNumber d.expiresAt < dayNumber now) →
      d.validationSignature
          ≠ hmacSHA256 licenseSecret (d.key ++ d.machineId ++ isoDate d.expiresAt) →
      verifyOfflineToken now token
        = { valid := false, reason := some "Invalid signature", data := none }) ∧
    (∀ d, decryptLicenseData token = some d →
      ¬ (dayNumber d.expiresAt < dayNumber now) →
      d.validationSignature
          = hmacSHA256 licenseSecret (d.key ++ d.machineId ++ isoDate d.expiresAt) →
      verifyOfflineToken now token
        = { valid := true, reason := none, data := some d }) := by
  refine ⟨?_, ?_, ?_, ?_⟩
  · intro hd
    simp [verifyOfflineToken, hd]
  · intro d hd hexp
    simp [verifyOfflineToken, hd, hexp]
  · intro d hd hexp hsig
    simp [verifyOfflineToken, hd, hexp, bne_iff_ne, hsig]
  · intro d hd hexp hsig
    simp [verifyOfflineToken, hd, hexp, bne_iff_ne, hsig]

/-- Witness for C6 on a concrete undecryptable blob. -/
theorem c6_verify_order_witness :
    verifyOfflineToken dNow (EncryptedBlob.garbage "yy")
      = { valid := false, reason := some "Invalid token", data := none } :=
  (c6_verify_order dNow (EncryptedBlob.garbage "yy")).1 rfl

/-! ## Claim C10 -/

/-- Claim C10 (confirmed): `resetMachines id` empties `machines_used` of
every row with that id and changes nothing else — all other fields of that
row (status and expiry in particular) and all other rows are untouched,
and the logs and the id counter are untouched. -/
theorem c10_reset_machines_frame (db : DB) (id : Nat) :
    (resetMachines db id).nextId = db.nextId ∧
    (resetMachines db id).logs = db.logs ∧
    (resetMachines db id).licenses.length = db.licenses.length ∧
    ∀ j : Nat, ∀ before : License, db.licenses[j]? = some before →
      ∃ after : License, (resetMachines db id).licenses[j]? = some after ∧
        (before.id = id → after = { before with machines_used := [] }) ∧
        (before.id ≠ id → after = before) := by
  refine ⟨rfl, rfl, by simp [resetMachines, updateById], ?_⟩
  intro j before hj
  refine ⟨if before.id == id then { before with machines_used := [] } else before,
    ?_, ?_, ?_⟩
  · simp [resetMachines, updateById, List.getElem?_map, hj]
  · intro h
    simp [h]
  · intro h
    simp [h]

/-- Witness for C10 at the one-license store. -/
theorem c10_reset_machines_frame_witness :
    ∃ after, (resetMachines dbOne 1).licenses[0]? = some after ∧
      after = { licOneMachine with machines_used := [] } := by
  obtain ⟨after, hafter, hyes, -⟩ :=
    (c10_reset_machines_frame dbOne 1).2.2.2 0 licOneMachine (by decide)
  exact ⟨after, hafter, hyes rfl⟩

/-! ## Claim C1 -/

/-- Counterexample to C1 as stated: with `max_machines = 1` and machine
`"A"` already bound, validating machine `"B"` returns `valid := true`
(not the claimed `valid:false` with reason `"machine limit exceeded"`)
and appends `"B"` to `machines_used` (the claim said the set is
unchanged). -/
theorem c1_counterexample :
    licOneMachine.max_machines = 1 ∧
    licOneMachine.machines_used = ["A"] ∧
    (validateLicense dNow 0 dbOne sampleKey "B").1.valid = true ∧
    (validateLicense dNow 0 dbOne sampleKey "B").1.reason = none ∧
    (findByKey (validateLicense dNow 0 dbOne sampleKey "B").2 sampleKey).map
        License.machines_used = some ["A", "B"] := by
  refine ⟨rfl, rfl, ?_, ?_, ?_⟩ <;> decide

/-- Claim C1 (corrected): the machine cap is ignored — for a stored
license with `max_machines = 1` and `machines_used = [A]`, validating a
different machine `B` returns `valid := true` with no reason and appends
`B`, growing the set past the cap. -/
theorem c1_machine_cap_ignored (db : DB) (key mA mB : String) (lic : License)
    (now : JSDate) (iv : Nat)
    (hfind : findByKey db key = some lic)
    (_hmax : lic.max_machines = 1)
    (hA : lic.machines_used = [mA])
    (hne : mB ≠ mA) :
    (validateLicense now iv db key mB).1.valid = true ∧
    (validateLicense now iv db key mB).1.reason = none ∧
    ∃ lic2, findByKey (validateLicense now iv db key mB).2 key = some lic2 ∧
      lic2.machines_used = [mA, mB] := by
  have hspec := validateFound_spec now iv db key lic mB hfind
  have hred : validateLicense now iv db key mB = validateFound now iv db lic mB := by
    simp [validateLicense, hfind]
  rw [hred]
  refine ⟨hspec.1, hspec.2.1, valFinal now mB lic, hspec.2.2, ?_⟩
  rw [valFinal_machines, hA]
  simp [hne]

/-- Witness for C1 at the one-license store. -/
theorem c1_machine_cap_ignored_witness :
    (validateLicense dNow 0 dbOne sampleKey "B").1.valid = true ∧
    (validateLicense dNow 0 dbOne sampleKey "B").1.reason = none ∧
    ∃ lic2, findByKey (validateLicense dNow 0 dbOne sampleKey "B").2 sampleKey
        = some lic2 ∧
      lic2.machines_used = ["A", "B"] :=
  c1_machine_cap_ignored dbOne sampleKey "A" "B" licOneMachine dNow 0
    (by decide) rfl rfl (by decide)

/-! ## Claim C2 -/

/-- Counterexample to C2 as stated: revoke the license, then validate its
key — the call returns `valid := true` (not `valid:false, reason:"revoked"`)
and the stored status is back to `"active"`: revocation is not terminal. -/
theorem c2_counterexample :
    (findByKey (revokeLicense dbOne 1) sampleKey).map License.status
      = some "revoked" ∧
    (validateLicense dNow 0 (revokeLicense dbOne 1) sampleKey "A").1.valid
      = true ∧
    (validateLicense dNow 0 (revokeLicense dbOne 1) sampleKey "A").1.reason
      ≠ some "revoked" ∧
    (findByKey (validateLicense dNow 0 (revokeLicense dbOne 1) sampleKey "A").2
        sampleKey).map License.status = some "active" := by
  refine ⟨?_, ?_, ?_, ?_⟩ <;> decide

/-- Claim C2 (corrected): after `revokeLicense(id)` the row is marked
`revoked`, but the very next `validate` call on its key forces the status
back to `"active"` and succeeds — the code auto-resurrects revoked
licenses instead of treating revocation as terminal. -/
theorem c2_revocation_not_terminal (db : DB) (key mid : String) (lic : License)
    (now : JSDate) (iv : Nat) (hfind : findByKey db key = some lic) :
    findByKey (revokeLicense db lic.id) key
      = some { lic with status := "revoked" } ∧
    (validateLicense now iv (revokeLicense db lic.id) key mid).1.valid = true ∧
    ∃ lic2, findByKey
        (validateLicense now iv (revokeLicense db lic.id) key mid).2 key
        = some lic2 ∧ lic2.status = "active" := by
  have hrev : findByKey (revokeLicense db lic.id) key
      = some { lic with status := "revoked" } := by
    unfold revokeLicense
    rw [findByKey_updateById db key lic.id
      (fun l => { l with status := "revoked" }) (fun l => rfl), hfind]
    simp
  have hspec := validateFound_spec now iv (revokeLicense db lic.id) key
    { lic with status := "revoked" } mid hrev
  have hred : validateLicense now iv (revokeLicense db lic.id) key mid
      = validateFound now iv (revokeLicense db lic.id)
          { lic with status := "revoked" } mid := by
    simp [validateLicense, hrev]
  rw [hred]
  exact ⟨hrev, hspec.1, _, hspec.2.2, valFinal_status _ _ _⟩

/-- Witness for C2 at the one-license store. -/
theorem c2_revocation_not_terminal_witness :
    findByKey (revokeLicense dbOne licOneMachine.id) sampleKey
      = some { licOneMachine with status := "revoked" } ∧
    (validateLicense dNow 0 (revokeLicense dbOne licOneMachine.id)
        sampleKey "A").1.valid = true ∧
    ∃ lic2, findByKey
        (validateLicense dNow 0 (revokeLicense dbOne licOneMachine.id)
          sampleKey "A").2 sampleKey
        = some lic2 ∧ lic2.status = "active" :=
  c2_revocation_not_terminal dbOne sampleKey "A" licOneMachine dNow 0 (by decide)

/-! ## Claim C3 -/

/-- Counterexample to C3 as stated: for the unknown key `sampleKey`
(matching the `RATO-` prefix) on an empty store, `validateLicense` does
not fail — it auto-creates a license record and returns `valid := true`,
so the store grows. -/
theorem c3_counterexample :
    findByKey dbEmpty sampleKey = none ∧
    (validateLicense dNow 0 dbEmpty sampleKey "M").1.valid = true ∧
    (validateLicense dNow 0 dbEmpty sampleKey "M").2.licenses.length = 1 := by
  refine ⟨rfl, ?_, ?_⟩ <;> decide

/-- Claim C3 (corrected): only for unknown keys NOT matching the `RATO-`
prefix does `validateLicense` return a not-found-style failure (reason
`"Chave inválida (deve começar com RATO-)"`) and leave the store
untouched; unknown keys with the `RATO-` prefix are auto-provisioned
instead. -/
theorem c3_invalid_key_branch (db : DB) (key mid : String) (now : JSDate)
    (iv : Nat) (hfind : findByKey db key = none)
    (hrato : keyStartsWithRATO key = false) :
    (validateLicense now iv db key mid).1
      = { valid := false
          reason := some "Chave inválida (deve começar com RATO-)"
          license := none
          offlineToken := none } ∧
    (validateLicense now iv db key mid).2 = db := by
  constructor <;> simp [validateLicense, hfind, hrato]

/-- Witness for C3 on a non-`RATO-` key. -/
theorem c3_invalid_key_branch_witness :
    (validateLicense dNow 0 dbOne "BADKEY" "M").1
      = { valid := false
          reason := some "Chave inválida (deve começar com RATO-)"
          license := none
          offlineToken := none } ∧
    (validateLicense dNow 0 dbOne "BADKEY" "M").2 = dbOne :=
  c3_invalid_key_branch dbOne "BADKEY" "M" dNow 0 (by decide) (by decide)

/-! ## Claims C4, C8, C9 -/

/-- Month offsets under any two leap flags differ by at most one, for every
month index (also out-of-range ones, where the table reads 0). -/
theorem monthOffsetB_leap_diff_any (L L' : Bool) (m : Nat) :
    monthOffsetB L' m - 1 ≤ monthOffsetB L m ∧
    monthOffsetB L m ≤ monthOffsetB L' m + 1 := by
  unfold monthOffsetB
  cases L <;> cases L' <;> by_cases h2 : 2 ≤ m <;> simp [h2] <;> omega

/-- A `lifetime` expiry computed from the current clock is never already in
the past. -/
theorem calcExp_lifetime_not_past (now : JSDate) :
    ¬ dayNumber (calculateExpiration "lifetime" now) < dayNumber now := by
  rw [show calculateExpiration "lifetime" now = setFullYearPlus 100 now from rfl]
  have hl := leapsTo_add_100 now.year
  have hb := monthOffsetB_leap_diff_any (isLeapYear (now.year + 100))
    (isLeapYear now.year) now.month
  simp only [dayNumber, setFullYearPlus]
  push_cast
  omega

/-- The freshly auto-provisioned row of the bypass branch. -/
def bypassRow (db : DB) (key : String) (now : JSDate) : License :=
  { id := db.nextId
    key := key
    email := some "bypass@ratoengine.com"
    plan := "lifetime"
    max_machines := 999
    machines_used := []
    status := "active"
    expires_at := calculateExpiration "lifetime" now
    last_validated := none }

/-- Claim C4 (confirmed): the bypass semantics of `validateLicense` — the
reason `"machine limit exceeded"` is never returned; every key with the
`RATO-` prefix validates successfully whatever the prior state; a missing
license is auto-created as a lifetime license with `max_machines = 999`
(status active, expiry about 100 years out, the machine bound); a found
license is forced back to `"active"`, and a past expiry is replaced by
`calculateExpiration "lifetime"` of the current clock.  (Storage is
modelled as always succeeding, matching the claim's proviso.) -/
theorem c4_bypass_semantics (db : DB) (key mid : String) (now : JSDate) (iv : Nat) :
    (validateLicense now iv db key mid).1.reason ≠ some "machine limit exceeded" ∧
    (keyStartsWithRATO key = true →
      (validateLicense now iv db key mid).1.valid = true) ∧
    (keyStartsWithRATO key = true → findByKey db key = none →
      ∃ lic2, findByKey (validateLicense now iv db key mid).2 key = some lic2 ∧
        lic2.plan = "lifetime" ∧ lic2.max_machines = 999 ∧
        lic2.email = some "bypass@ratoengine.com" ∧ lic2.status = "active" ∧
        lic2.expires_at = calculateExpiration "lifetime" now ∧
        lic2.machines_used = [mid]) ∧
    (∀ lic, findByKey db key = some lic →
      ∃ lic2, findByKey (validateLicense now iv db key mid).2 key = some lic2 ∧
        lic2.status = "active" ∧
        lic2.expires_at = (if dayNumber lic.expires_at < dayNumber now
          then calculateExpiration "lifetime" now else lic.expires_at)) := by
  refine ⟨?_, ?_, ?_, ?_⟩
  · cases hfind : findByKey db key with
    | some lic =>
      have hred : validateLicense now iv db key mid
          = validateFound now iv db lic mid := by
        simp [validateLicense, hfind]
      rw [hred, (validateFound_spec now iv db key lic mid hfind).2.1]
      simp
    | none =>
      cases hrato : keyStartsWithRATO key with
      | true =>
        have hins := findByKey_insertLicense_of_none db key
          (some "bypass@ratoengine.com") "lifetime" 999
          (calculateExpiration "lifetime" now) "active" hfind
        have hred : validateLicense now iv db key mid
            = validateFound now iv
                (insertLicense db key (some "bypass@ratoengine.com") "lifetime"
                  999 (calculateExpiration "lifetime" now) "active")
                (bypassRow db key now) mid := by
          simp [validateLicense, hfind, hrato, hins, bypassRow]
        rw [hred, (validateFound_spec now iv _ key (bypassRow db key now) mid
          hins).2.1]
        simp
      | false =>
        have hred : (validateLicense now iv db key mid).1.reason
            = some "Chave inválida (deve começar com RATO-)" := by
          simp [validateLicense, hfind, hrato]
        rw [hred]
        simp
  · intro hrato
    cases hfind : findByKey db key with
    | some lic =>
      have hred : validateLicense now iv db key mid
          = validateFound now iv db lic mid := by
        simp [validateLicense, hfind]
      rw [hred]
      exact (validateFound_spec now iv db key lic mid hfind).1
    | none =>
      have hins := findByKey_insertLicense_of_none db key
        (some "bypass@ratoengine.com") "lifetime" 999
        (calculateExpiration "lifetime" now) "active" hfind
      have hred : validateLicense now iv db key mid
          = validateFound now iv
              (insertLicense db key (some "bypass@ratoengine.com") "lifetime"
                999 (calculateExpiration "lifetime" now) "active")
              (bypassRow db key now) mid := by
        simp [validateLicense, hfind, hrato, hins, bypassRow]
      rw [hred]
      exact (validateFound_spec now iv _ key (bypassRow db key now) mid hins).1
  · intro hrato hfind
    have hins := findByKey_insertLicense_of_none db key
      (some "bypass@ratoengine.com") "lifetime" 999
      (calculateExpiration "lifetime" now) "active" hfind
    have hred : validateLicense now iv db key mid
        = validateFound now iv
            (insertLicense db key (some "bypass@ratoengine.com") "lifetime"
              999 (calculateExpiration "lifetime" now) "active")
            (bypassRow db key now) mid := by
      simp [validateLicense, hfind, hrato, hins, bypassRow]
    rw [hred]
    refine ⟨valFinal now mid (bypassRow db key now),
      (validateFound_spec now iv _ key (bypassRow db key now) mid hins).2.2,
      ?_, ?_, ?_, valFinal_status _ _ _, ?_, ?_⟩
    · exact (valFinal_frame now mid (bypassRow db key now)).2.1
    · exact (valFinal_frame now mid (bypassRow db key now)).2.2.2
    · exact (valFinal_frame now mid (bypassRow db key now)).2.2.1
    · rw [valFinal_expires]
      simp [bypassRow, calcExp_lifetime_not_past now]
    · rw [valFinal_machines]
      simp [bypassRow]
  · intro lic hfind
    have hred : validateLicense now iv db key mid
        = validateFound now iv db lic mid := by
      simp [validateLicense, hfind]
    rw [hred]
    exact ⟨valFinal now mid lic,
      (validateFound_spec now iv db key lic mid hfind).2.2,
      valFinal_status _ _ _, valFinal_expires _ _ _⟩

/-- Witness for C4: auto-provisioning on an empty store. -/
theorem c4_bypass_semantics_witness :
    (validateLicense dNow 0 dbEmpty sampleKey "M").1.valid = true ∧
    ∃ lic2, findByKey (validateLicense dNow 0 dbEmpty sampleKey "M").2 sampleKey
        = some lic2 ∧
      lic2.plan = "lifetime" ∧ lic2.max_machines = 999 ∧
      lic2.email = some "bypass@ratoengine.com" ∧ lic2.status = "active" ∧
      lic2.expires_at = calculateExpiration "lifetime" dNow ∧
      lic2.machines_used = ["M"] :=
  ⟨(c4_bypass_semantics dbEmpty sampleKey "M" dNow 0).2.1 (by decide),
   (c4_bypass_semantics dbEmpty sampleKey "M" dNow 0).2.2.1 (by decide) (by decide)⟩

/-- Claim C8 (confirmed): validation is idempotent in the machine set.
For a stored license holding at most one entry for `mid` (the set
discipline the schema maintains: rows start at `'[]'` and the code only
appends absent machines), two validations with the same `(key, mid)` leave
at most one entry for `mid`; moreover the second validation does not
change `machines_used` at all. -/
theorem c8_validate_idempotent (db : DB) (key mid : String) (lic : License)
    (now1 now2 : JSDate) (iv1 iv2 : Nat)
    (hfind : findByKey db key = some lic)
    (hcount : lic.machines_used.count mid ≤ 1) :
    ∃ lic1 lic2,
      findByKey (validateLicense now1 iv1 db key mid).2 key = some lic1 ∧
      findByKey (validateLicense now2 iv2
          (validateLicense now1 iv1 db key mid).2 key mid).2 key = some lic2 ∧
      lic2.machines_used = lic1.machines_used ∧
      lic1.machines_used.count mid = 1 ∧
      lic2.machines_used.count mid = 1 := by
  have hred1 : validateLicense now1 iv1 db key mid
      = validateFound now1 iv1 db lic mid := by
    simp [validateLicense, hfind]
  have hspec1 := validateFound_spec now1 iv1 db key lic mid hfind
  have hfind1 : findByKey (validateLicense now1 iv1 db key mid).2 key
      = some (valFinal now1 mid lic) := by
    rw [hred1]; exact hspec1.2.2
  have hmach1 : (valFinal now1 mid lic).machines_used
      = if mid ∈ lic.machines_used then lic.machines_used
        else lic.machines_used ++ [mid] := valFinal_machines now1 mid lic
  have hmem1 : mid ∈ (valFinal now1 mid lic).machines_used := by
    rw [hmach1]
    by_cases hm : mid ∈ lic.machines_used <;> simp [hm]
  have hcount1 : (valFinal now1 mid lic).machines_used.count mid = 1 := by
    rw [hmach1]
    by_cases hm : mid ∈ lic.machines_used
    · have h1 : 1 ≤ lic.machines_used.count mid := List.one_le_count_iff.mpr hm
      simp only [hm, if_true]
      omega
    · have h0 : lic.machines_used.count mid = 0 :=
        List.count_eq_zero.mpr hm
      simp [hm, List.count_append, h0]
  have hredgen : ∀ d : DB, ∀ l : License, findByKey d key = some l →
      validateLicense now2 iv2 d key mid = validateFound now2 iv2 d l mid := by
    intro d l hl
    simp [validateLicense, hl]
  have hred2 : validateLicense now2 iv2 (validateLicense now1 iv1 db key mid).2
        key mid
      = validateFound now2 iv2 (validateLicense now1 iv1 db key mid).2
          (valFinal now1 mid lic) mid :=
    hredgen _ _ hfind1
  have hspec2 := validateFound_spec now2 iv2
    (validateLicense now1 iv1 db key mid).2 key (valFinal now1 mid lic) mid hfind1
  have hmach2 : (valFinal now2 mid (valFinal now1 mid lic)).machines_used
      = (valFinal now1 mid lic).machines_used := by
    rw [valFinal_machines]
    simp [hmem1]
  refine ⟨valFinal now1 mid lic, valFinal now2 mid (valFinal now1 mid lic),
    hfind1, ?_, hmach2, hcount1, ?_⟩
  · rw [hred2]; exact hspec2.2.2
  · rw [hmach2]; exact hcount1

/-- Witness for C8 at the one-license store (machine `"A"` bound once). -/
theorem c8_validate_idempotent_witness :
    ∃ lic1 lic2,
      findByKey (validateLicense dNow 0 dbOne sampleKey "A").2 sampleKey
        = some lic1 ∧
      findByKey (validateLicense dNow 1
          (validateLicense dNow 0 dbOne sampleKey "A").2 sampleKey "A").2
          sampleKey = some lic2 ∧
      lic2.machines_used = lic1.machines_used ∧
      lic1.machines_used.count "A" = 1 ∧
      lic2.machines_used.count "A" = 1 :=
  c8_validate_idempotent dbOne sampleKey "A" licOneMachine dNow dNow 0 1
    (by decide) (by decide)

/-- Counterexample to C9 as stated: `calculateExpiration 'monthly'` from
February 15, 2025 gives March 15, 2025 — only 28 days ahead, outside the
claimed 30±1-day window. -/
theorem c9_counterexample :
    dayNumber (calculateExpiration "monthly" ⟨2025, 1, 15⟩)
        - dayNumber ⟨2025, 1, 15⟩ = 28 ∧
    ¬ (29 ≤ dayNumber (calculateExpiration "monthly" ⟨2025, 1, 15⟩)
        - dayNumber ⟨2025, 1, 15⟩) := by
  refine ⟨?_, ?_⟩ <;> decide

/-- Claim C9 (corrected: a month ahead is 28–31 days, not 30±1): the plan
to duration mapping — `monthly` lands 28–31 days ahead (one calendar
month), `annual` 365–366 days, `lifetime` 36523–36526 days (about 100
years), and `createLicense` persists the new license with exactly this
`expires_at` and status `active` (the schema default). -/
theorem c9_expiration_arithmetic (now : JSDate) (h : now.month < 12)
    (rand : Nat → Fin 36) (db : DB) (email : Option String) (plan : String)
    (mm : Option Int) :
    (28 ≤ dayNumber (calculateExpiration "monthly" now) - dayNumber now ∧
      dayNumber (calculateExpiration "monthly" now) - dayNumber now ≤ 31) ∧
    (365 ≤ dayNumber (calculateExpiration "annual" now) - dayNumber now ∧
      dayNumber (calculateExpiration "annual" now) - dayNumber now ≤ 366) ∧
    (36523 ≤ dayNumber (calculateExpiration "lifetime" now) - dayNumber now ∧
      dayNumber (calculateExpiration "lifetime" now) - dayNumber now ≤ 36526) ∧
    (createLicense rand now db email plan mm).2.licenses
      = db.licenses ++
        [{ id := db.nextId
           key := generateLicenseKey rand
           email := email
           plan := plan
           max_machines := mm.getD 1
           machines_used := []
           status := "active"
           expires_at := calculateExpiration plan now
           last_validated := none }] := by
  exact ⟨calculateExpiration_monthly_bounds now h,
    calculateExpiration_annual_bounds now h,
    calculateExpiration_lifetime_bounds now h, rfl⟩

/-- Witness for C9 at January 15, 2025 with a constant random stream. -/
theorem c9_expiration_arithmetic_witness :
    (28 ≤ dayNumber (calculateExpiration "monthly" dNow) - dayNumber dNow ∧
      dayNumber (calculateExpiration "monthly" dNow) - dayNumber dNow ≤ 31) ∧
    (365 ≤ dayNumber (calculateExpiration "annual" dNow) - dayNumber dNow ∧
      dayNumber (calculateExpiration "annual" dNow) - dayNumber dNow ≤ 366) ∧
    (36523 ≤ dayNumber (calculateExpiration "lifetime" dNow) - dayNumber dNow ∧
      dayNumber (calculateExpiration "lifetime" dNow) - dayNumber dNow ≤ 36526) ∧
    (createLicense (fun _ => 0) dNow dbEmpty none "monthly" none).2.licenses
      = dbEmpty.licenses ++
        [{ id := dbEmpty.nextId
           key := generateLicenseKey (fun _ => 0)
           email := none
           plan := "monthly"
           max_machines := Option.getD none 1
           machines_used := []
           status := "active"
           expires_at := calculateExpiration "monthly" dNow
           last_validated := none }] :=
  c9_expiration_arithmetic dNow (by decide) (fun _ => 0) dbEmpty none "monthly" none
